import Mathlib

/-!
Verification development for the `tbas` repository: a shallow embedding of
the data-normalization / persistence layer (`ubikais-crawler/ubikais_database.py`),
the fetch-with-retry client (`docker/unified_crawler.py`) and the query façade
(`lambda_handler.py`), together with theorems settling the specification claims.

Modelling conventions:
* Python/JSON scalar values are modeled by `PyVal`; nested lists/dicts are
  modeled opaquely by `PyVal.nested` (the persistence layer only ever binds
  scalars, and a nested value is exactly what makes `sqlite3` parameter
  binding raise).
* Python `float` arithmetic is modeled exactly over `ℚ` (the claims state
  exact decimal values, which only the real-valued formula satisfies).
* Python strings handed to the coordinate parser are modeled as `List Char`.
* Fallible operations return `Option` / `Except`; a Python function that
  catches all exceptions and returns `None` is a total function into `Option`.
-/

namespace Tbas

/-- A Python value as it occurs in the upstream JSON records: `none` models
both Python `None` and JSON null, `nested` opaquely models a nested
list/dict value (tagged, so distinct nested values stay distinct). -/
inductive PyVal where
  | none : PyVal
  | str (s : String) : PyVal
  | num (q : ℚ) : PyVal
  | bool (b : Bool) : PyVal
  | nested (tag : String) : PyVal
deriving DecidableEq, Repr

/-- Python truthiness of a value (`if x:`): `None`, the empty string, zero
and `False` are falsy.  Opaque nested values model non-empty containers and
are truthy. -/
def truthy : PyVal → Bool
  | .none => false
  | .str s => s ≠ ""
  | .num q => q ≠ 0
  | .bool b => b
  | .nested _ => true

/-- Python `a or b`: returns `a` when `a` is truthy, else `b`. -/
def pyOr (a b : PyVal) : PyVal := if truthy a then a else b

/-- An upstream JSON object (Python dict): association list of fields. -/
def Rec := List (String × PyVal)
deriving DecidableEq

/-- Python `d.get(k)`: the first value stored under `k`, or `None` when the
key is absent. -/
def rget (r : Rec) (k : String) : PyVal :=
  match r with
  | [] => .none
  | (k', v) :: rest => if k' = k then v else rget rest k

/-- Whether a Python value is bindable as an `sqlite3` statement parameter:
scalars bind, nested lists/dicts raise `InterfaceError`. -/
def bindOk : PyVal → Bool
  | .nested _ => false
  | _ => true

/-- Serialization of one value inside `json.dumps` (string escaping and the
numeric rendering are abstracted; the model only needs the rendering to
distinguish the concrete records the theorems mention). -/
def PyVal.dumps : PyVal → String
  | .none => "null"
  | .str s => "\"" ++ s ++ "\""
  | .num q => toString q
  | .bool b => if b then "true" else "false"
  | .nested t => t

/-- `json.dumps(record, ensure_ascii=False)`: the serialized upstream object
that the persistence layer stores verbatim in the `raw_data` column. -/
def recDumps (r : Rec) : String :=
  "\x7b" ++ String.intercalate ", " (r.map (fun kv => "\"" ++ kv.1 ++ "\": " ++ kv.2.dumps)) ++ "\x7d"

/-! ## Coordinate parser (`UBIKAISDatabase._parse_coordinate`) -/

/-- Digit characters accumulated into a natural number. -/
def digitsToNat (cs : List Char) : ℕ :=
  cs.foldl (fun acc c => 10 * acc + (c.toNat - '0'.toNat)) 0

/-- Magnitude part of Python `float(s)`: `digits`, `digits.`, `digits.digits`
or `.digits`.  (The model covers the sign/digits/fraction forms; the
exotic forms `float` also accepts — exponents, `inf`, `nan`, underscores,
surrounding whitespace — do not occur in coordinate strings.) -/
def pyFloatMag (cs : List Char) : Option ℚ :=
  let intPart := cs.takeWhile Char.isDigit
  let rest := cs.dropWhile Char.isDigit
  match rest with
  | [] => if intPart.isEmpty then none else some (digitsToNat intPart)
  | '.' :: frac =>
    if frac.all Char.isDigit ∧ ¬(intPart.isEmpty ∧ frac.isEmpty) then
      some ((digitsToNat intPart : ℚ) + (digitsToNat frac : ℚ) / (10 : ℚ) ^ frac.length)
    else none
  | _ => none

/-- Python `float(s)` on a character-list string: optional sign, then a
digits/fraction magnitude; raises (here: `none`) otherwise. -/
def pyFloat? (cs : List Char) : Option ℚ :=
  match cs with
  | '+' :: rest => pyFloatMag rest
  | '-' :: rest => (pyFloatMag rest).map (fun q => -q)
  | rest => pyFloatMag rest

/-- Python `s.split(sep)` for a one-character separator. -/
def splitOnChar (c : Char) : List Char → List (List Char)
  | [] => [[]]
  | x :: xs =>
    match splitOnChar c xs with
    | [] => if x = c then [[], []] else [[x]]
    | h :: t => if x = c then [] :: h :: t else (x :: h) :: t

/-- `UBIKAISDatabase._parse_coordinate`: converts a coordinate string to
signed decimal degrees.  Empty input returns `None`; a string containing a
dash is treated as `<dir><deg>-<min>-<sec>` with the first character taken
as the hemisphere letter; otherwise the string is parsed as a decimal
number.  The bare `except:` that swallows every conversion error is modeled
by the `Option` plumbing. -/
def parse_coordinate (cs : List Char) : Option ℚ :=
  if cs.isEmpty then none
  else if cs.contains '-' then
    let direction := cs.headD ' '
    let parts := splitOnChar '-' (cs.drop 1)
    match pyFloat? (parts.headD []) with
    | none => none
    | some degrees =>
      match (if parts.length > 1 then pyFloat? (parts.getD 1 []) else some 0) with
      | none => none
      | some minutes =>
        match (if parts.length > 2 then pyFloat? (parts.getD 2 []) else some 0) with
        | none => none
        | some seconds =>
          let decimal := degrees + minutes / 60 + seconds / 3600
          some (if direction = 'S' ∨ direction = 'W' then -decimal else decimal)
  else
    pyFloat? cs

/-! ### Lemmas about the coordinate parser -/

theorem splitOnChar_of_not_mem {c : Char} {l : List Char} (h : c ∉ l) :
    splitOnChar c l = [l] := by
  induction l with
  | nil => rfl
  | cons x xs ih =>
    have hx : x ≠ c := fun hxc => h (hxc ▸ List.mem_cons_self x xs)
    have hxs : c ∉ xs := fun hm => h (List.mem_cons_of_mem x hm)
    simp [splitOnChar, ih hxs, hx]

theorem splitOnChar_ne_nil (c : Char) (l : List Char) : splitOnChar c l ≠ [] := by
  cases l with
  | nil => simp [splitOnChar]
  | cons x xs =>
    simp only [splitOnChar]
    rcases splitOnChar c xs with _ | ⟨h, t⟩ <;> by_cases hx : x = c <;> simp [hx]

theorem splitOnChar_append {c : Char} {a rest : List Char} (h : c ∉ a) :
    splitOnChar c (a ++ c :: rest) = a :: splitOnChar c rest := by
  induction a with
  | nil =>
    cases hr : splitOnChar c rest with
    | nil => exact absurd hr (splitOnChar_ne_nil c rest)
    | cons y ys => simp [splitOnChar, hr]
  | cons x xs ih =>
    have hx : x ≠ c := fun hxc => h (hxc ▸ List.mem_cons_self x xs)
    have hxs : c ∉ xs := fun hm => h (List.mem_cons_of_mem x hm)
    have := ih hxs
    cases hr : splitOnChar c (xs ++ c :: rest) with
    | nil => rw [hr] at this; cases this
    | cons y ys =>
      rw [hr] at this
      simp [splitOnChar, hr, hx, this]

theorem pyFloat?_ne_nil {cs : List Char} {q : ℚ} (h : pyFloat? cs = some q) :
    cs ≠ [] := by
  intro hnil
  subst hnil
  simp [pyFloat?, pyFloatMag] at h

theorem contains_of_mem {c : Char} {l : List Char} (h : c ∈ l) :
    l.contains c = true := by
  simpa [List.contains] using h

/-- Hemisphere-prefixed `<dir><deg>-<min>-<sec>` strings: with all three
sexagesimal components present and dash-free, the parser returns
`deg + min/60 + sec/3600`, negated for `S`/`W`. -/
theorem parse_coordinate_hemi3 (d : Char) (ds ms ss : List Char) (qd qm qs : ℚ)
    (hd : pyFloat? ds = some qd) (hm : pyFloat? ms = some qm)
    (hs : pyFloat? ss = some qs)
    (nd : '-' ∉ ds) (nm : '-' ∉ ms) (ns : '-' ∉ ss) :
    parse_coordinate (d :: (ds ++ '-' :: (ms ++ '-' :: ss)))
      = some (if d = 'S' ∨ d = 'W' then -(qd + qm / 60 + qs / 3600)
              else qd + qm / 60 + qs / 3600) := by
  have hcont : (d :: (ds ++ '-' :: (ms ++ '-' :: ss))).contains '-' = true :=
    contains_of_mem (by simp)
  have hsplit : splitOnChar '-' (ds ++ '-' :: (ms ++ '-' :: ss)) = [ds, ms, ss] := by
    rw [splitOnChar_append nd, splitOnChar_append nm, splitOnChar_of_not_mem ns]
  simp only [parse_coordinate, List.isEmpty_cons, List.drop_succ_cons, List.drop_zero,
    hcont, if_false, Bool.false_eq_true, if_true, List.headD_cons, hsplit]
  simp [hd, hm, hs]

/-- Hemisphere-prefixed `<dir><deg>-<min>` strings (seconds omitted):
seconds default to `0`. -/
theorem parse_coordinate_hemi2 (d : Char) (ds ms : List Char) (qd qm : ℚ)
    (hd : pyFloat? ds = some qd) (hm : pyFloat? ms = some qm)
    (nd : '-' ∉ ds) (nm : '-' ∉ ms) :
    parse_coordinate (d :: (ds ++ '-' :: ms))
      = some (if d = 'S' ∨ d = 'W' then -(qd + qm / 60)
              else qd + qm / 60) := by
  have hcont : (d :: (ds ++ '-' :: ms)).contains '-' = true :=
    contains_of_mem (by simp)
  have hsplit : splitOnChar '-' (ds ++ '-' :: ms) = [ds, ms] := by
    rw [splitOnChar_append nd, splitOnChar_of_not_mem nm]
  simp only [parse_coordinate, List.isEmpty_cons, List.drop_succ_cons, List.drop_zero,
    hcont, if_false, Bool.false_eq_true, if_true, List.headD_cons, hsplit]
  have h360 : qd + qm / 60 + 0 / 3600 = qd + qm / 60 := by norm_num
  simp [hd, hm, h360]

/-- Decimal numeric strings without any dash parse to their value. -/
theorem parse_coordinate_decimal (cs : List Char) (q : ℚ)
    (hq : pyFloat? cs = some q) (hnd : '-' ∉ cs) :
    parse_coordinate cs = some q := by
  have hne : cs ≠ [] := pyFloat?_ne_nil hq
  have hcont : cs.contains '-' = false := by
    simp [List.contains]
    exact hnd
  simp [parse_coordinate, hne, hcont, hq, hnd, List.isEmpty_iff]

/-- A leading-minus decimal numeric string loses its sign: the `-` is
consumed as a (non-)hemisphere letter and the magnitude is returned. -/
theorem parse_coordinate_neg_decimal (cs : List Char) (q : ℚ)
    (hq : pyFloat? cs = some q) (hnd : '-' ∉ cs) :
    parse_coordinate ('-' :: cs) = some q := by
  have hcont : (('-' : Char) :: cs).contains '-' = true :=
    contains_of_mem (by simp)
  have hsplit : splitOnChar '-' cs = [cs] := splitOnChar_of_not_mem hnd
  simp only [parse_coordinate, List.isEmpty_cons, List.drop_succ_cons, List.drop_zero,
    hcont, if_false, Bool.false_eq_true, if_true, List.headD_cons, hsplit]
  have h0 : q + 0 / 60 + 0 / 3600 = q := by norm_num
  simp [hq, h0]

/-- Claim C4, counterexample: the claim admits sexagesimal strings with the
minutes component omitted (defaulting to 0), so `"S37"` should parse to
`-37`; but `"S37"` contains no dash, is handed to `float()` whole, and the
parser returns absence instead. -/
theorem claim_C4_counterexample :
    parse_coordinate "S37".toList = none ∧ (none : Option ℚ) ≠ some (-37) :=
  ⟨rfl, by simp⟩

/-- Claim C4 as amended: for hemisphere-prefixed sexagesimal strings
`<N|S|E|W><deg>-<min>-<sec>` or `<N|S|E|W><deg>-<min>` with numeric,
dash-free components — the minutes separator must be present, a bare
`<hemi><deg>` yields absence — the parser returns `deg + min/60 + sec/3600`
(seconds defaulting to 0), negated when the hemisphere letter is S or W. -/
theorem claim_C4 :
    (∀ (d : Char) (ds ms ss : List Char) (qd qm qs : ℚ),
      pyFloat? ds = some qd → pyFloat? ms = some qm → pyFloat? ss = some qs →
      '-' ∉ ds → '-' ∉ ms → '-' ∉ ss →
      parse_coordinate (d :: (ds ++ '-' :: (ms ++ '-' :: ss)))
        = some (if d = 'S' ∨ d = 'W' then -(qd + qm / 60 + qs / 3600)
                else qd + qm / 60 + qs / 3600)) ∧
    (∀ (d : Char) (ds ms : List Char) (qd qm : ℚ),
      pyFloat? ds = some qd → pyFloat? ms = some qm →
      '-' ∉ ds → '-' ∉ ms →
      parse_coordinate (d :: (ds ++ '-' :: ms))
        = some (if d = 'S' ∨ d = 'W' then -(qd + qm / 60)
                else qd + qm / 60)) :=
  ⟨fun d ds ms ss qd qm qs hd hm hs nd nm ns =>
      parse_coordinate_hemi3 d ds ms ss qd qm qs hd hm hs nd nm ns,
   fun d ds ms qd qm hd hm nd nm =>
      parse_coordinate_hemi2 d ds ms qd qm hd hm nd nm⟩

/-- Claim C4 witness: `"S37-27-45"` parses to `-(37 + 27/60 + 45/3600) =
-37.4625`, and `"N37-27"` (seconds omitted) parses to `37 + 27/60`. -/
theorem claim_C4_witness :
    parse_coordinate ('S' :: ("37".toList ++ '-' :: ("27".toList ++ '-' :: "45".toList)))
        = some (-(2997 / 80)) ∧
    parse_coordinate ('N' :: ("37".toList ++ '-' :: "27".toList)) = some (749 / 20) := by
  constructor
  · have h := claim_C4.1 'S' "37".toList "27".toList "45".toList 37 27 45
      (by decide) (by decide) (by decide) (by decide) (by decide) (by decide)
    rw [h]; norm_num
  · have h := claim_C4.2 'N' "37".toList "27".toList 37 27
      (by decide) (by decide) (by decide) (by decide)
    rw [h]; norm_num
    exact ⟨by decide, by decide⟩

/-- Claim C5, counterexample: the negative decimal numeric string
`"-37.46"` should return the signed value `-37.46 = -1873/50`, but the
parser takes the dash branch, consumes the minus sign as a hemisphere
letter, and returns the unsigned `+37.46`. -/
theorem claim_C5_counterexample :
    parse_coordinate "-37.46".toList = some (1873 / 50) ∧
    parse_coordinate "-37.46".toList ≠ some (-(1873 / 50)) := by
  have h : parse_coordinate "-37.46".toList
      = some ((((37 : ℕ) : ℚ) + ((46 : ℕ) : ℚ) / (10 : ℚ) ^ 2) + 0 / 60 + 0 / 3600) := rfl
  constructor
  · rw [h]; norm_num
  · rw [h]; intro hc; rw [Option.some_inj] at hc; norm_num at hc

/-- Claim C5 as amended: the parser is total (never raises); it returns
absence for empty input; a decimal numeric string without any dash parses
to its value; but a leading-minus decimal numeric string returns the
magnitude with the sign dropped (the `-` is consumed as a hemisphere
position), not the signed value. -/
theorem claim_C5 :
    parse_coordinate [] = none ∧
    (∀ (cs : List Char) (q : ℚ), pyFloat? cs = some q → '-' ∉ cs →
      parse_coordinate cs = some q) ∧
    (∀ (cs : List Char) (q : ℚ), pyFloat? cs = some q → '-' ∉ cs →
      parse_coordinate ('-' :: cs) = some q) :=
  ⟨rfl,
   fun cs q hq hnd => parse_coordinate_decimal cs q hq hnd,
   fun cs q hq hnd => parse_coordinate_neg_decimal cs q hq hnd⟩

/-- Claim C5 witness: `"37"` parses to `37`, and `"-37"` parses to the
sign-dropped `37`. -/
theorem claim_C5_witness :
    parse_coordinate "37".toList = some 37 ∧
    parse_coordinate ('-' :: "37".toList) = some 37 :=
  ⟨claim_C5.2.1 "37".toList 37 (by decide) (by decide),
   claim_C5.2.2 "37".toList 37 (by decide) (by decide)⟩

/-! ## Store initialization (`UBIKAISDatabase.__init__` / `_create_tables`)

The DDL statements executed by `_create_tables`, verbatim from the source.
SQLite's statement compiler is modeled only as far as the claims need it:
`CREATE TABLE` statements (all syntactically valid in the source) are
accepted, and a `CREATE INDEX` statement is accepted exactly when the token
after the index name is `ON`, as the SQLite grammar
`CREATE INDEX [IF NOT EXISTS] name ON table(columns)` requires. -/

/-- The DDL statements of `_create_tables`, in execution order. -/
def createTableStatements : List String :=
  [ "CREATE TABLE IF NOT EXISTS notam_fir (
        id INTEGER PRIMARY KEY AUTOINCREMENT,
        notam_id TEXT UNIQUE,
        series TEXT,
        number TEXT,
        year TEXT,
        type TEXT,
        fir TEXT,
        q_code TEXT,
        traffic TEXT,
        purpose TEXT,
        scope TEXT,
        lower_limit TEXT,
        upper_limit TEXT,
        coordinates TEXT,
        radius TEXT,
        location TEXT,
        valid_from TEXT,
        valid_to TEXT,
        schedule TEXT,
        full_text TEXT,
        raw_data TEXT,
        created_at TEXT DEFAULT CURRENT_TIMESTAMP,
        updated_at TEXT DEFAULT CURRENT_TIMESTAMP
    )",
    "CREATE TABLE IF NOT EXISTS notam_ad (
        id INTEGER PRIMARY KEY AUTOINCREMENT,
        notam_id TEXT,
        airport_icao TEXT,
        series TEXT,
        number TEXT,
        year TEXT,
        type TEXT,
        q_code TEXT,
        traffic TEXT,
        purpose TEXT,
        scope TEXT,
        lower_limit TEXT,
        upper_limit TEXT,
        coordinates TEXT,
        radius TEXT,
        valid_from TEXT,
        valid_to TEXT,
        schedule TEXT,
        full_text TEXT,
        raw_data TEXT,
        created_at TEXT DEFAULT CURRENT_TIMESTAMP,
        updated_at TEXT DEFAULT CURRENT_TIMESTAMP,
        UNIQUE(notam_id, airport_icao)
    )",
    "CREATE TABLE IF NOT EXISTS snowtam (
        id INTEGER PRIMARY KEY AUTOINCREMENT,
        snowtam_id TEXT UNIQUE,
        airport_icao TEXT,
        observation_time TEXT,
        runway TEXT,
        deposit_type TEXT,
        extent TEXT,
        depth TEXT,
        friction TEXT,
        contamination TEXT,
        full_text TEXT,
        raw_data TEXT,
        created_at TEXT DEFAULT CURRENT_TIMESTAMP,
        updated_at TEXT DEFAULT CURRENT_TIMESTAMP
    )",
    "CREATE TABLE IF NOT EXISTS prohibited_area (
        id INTEGER PRIMARY KEY AUTOINCREMENT,
        notam_id TEXT UNIQUE,
        area_name TEXT,
        area_type TEXT,
        coordinates TEXT,
        lower_limit TEXT,
        upper_limit TEXT,
        valid_from TEXT,
        valid_to TEXT,
        remarks TEXT,
        full_text TEXT,
        raw_data TEXT,
        created_at TEXT DEFAULT CURRENT_TIMESTAMP,
        updated_at TEXT DEFAULT CURRENT_TIMESTAMP
    )",
    "CREATE TABLE IF NOT EXISTS airports (
        id INTEGER PRIMARY KEY AUTOINCREMENT,
        icao_code TEXT UNIQUE,
        iata_code TEXT,
        name TEXT,
        name_korean TEXT,
        city TEXT,
        usage_type TEXT,
        magnetic_variation TEXT,
        magnetic_variation_year TEXT,
        elevation_m REAL,
        elevation_ft REAL,
        geoid_undulation REAL,
        latitude TEXT,
        longitude TEXT,
        latitude_decimal REAL,
        longitude_decimal REAL,
        tower_elevation_m REAL,
        verification_date TEXT,
        raw_data TEXT,
        created_at TEXT DEFAULT CURRENT_TIMESTAMP,
        updated_at TEXT DEFAULT CURRENT_TIMESTAMP
    )",
    "CREATE TABLE IF NOT EXISTS runways (
        id INTEGER PRIMARY KEY AUTOINCREMENT,
        airport_icao TEXT,
        runway_id TEXT,
        direction TEXT,
        length_m REAL,
        width_m REAL,
        surface TEXT,
        strength TEXT,
        threshold_latitude TEXT,
        threshold_longitude TEXT,
        threshold_elevation_m REAL,
        displaced_threshold_m REAL,
        stopway_m REAL,
        clearway_m REAL,
        tora_m REAL,
        toda_m REAL,
        asda_m REAL,
        lda_m REAL,
        slope_percent REAL,
        lighting TEXT,
        raw_data TEXT,
        created_at TEXT DEFAULT CURRENT_TIMESTAMP,
        updated_at TEXT DEFAULT CURRENT_TIMESTAMP,
        UNIQUE(airport_icao, runway_id, direction)
    )",
    "CREATE TABLE IF NOT EXISTS aprons (
        id INTEGER PRIMARY KEY AUTOINCREMENT,
        airport_icao TEXT,
        apron_name TEXT,
        apron_type TEXT,
        surface TEXT,
        strength TEXT,
        area_sqm REAL,
        max_aircraft_size TEXT,
        stands_count INTEGER,
        latitude TEXT,
        longitude TEXT,
        raw_data TEXT,
        created_at TEXT DEFAULT CURRENT_TIMESTAMP,
        updated_at TEXT DEFAULT CURRENT_TIMESTAMP,
        UNIQUE(airport_icao, apron_name)
    )",
    "CREATE TABLE IF NOT EXISTS navaids (
        id INTEGER PRIMARY KEY AUTOINCREMENT,
        navaid_id TEXT UNIQUE,
        navaid_type TEXT,
        name TEXT,
        frequency TEXT,
        channel TEXT,
        latitude TEXT,
        longitude TEXT,
        latitude_decimal REAL,
        longitude_decimal REAL,
        elevation_m REAL,
        magnetic_variation TEXT,
        range_nm REAL,
        airport_icao TEXT,
        remarks TEXT,
        raw_data TEXT,
        created_at TEXT DEFAULT CURRENT_TIMESTAMP,
        updated_at TEXT DEFAULT CURRENT_TIMESTAMP
    )",
    "CREATE TABLE IF NOT EXISTS obstacles (
        id INTEGER PRIMARY KEY AUTOINCREMENT,
        obstacle_id TEXT UNIQUE,
        obstacle_type TEXT,
        name TEXT,
        latitude TEXT,
        longitude TEXT,
        latitude_decimal REAL,
        longitude_decimal REAL,
        elevation_m REAL,
        height_m REAL,
        lighting TEXT,
        marking TEXT,
        airport_icao TEXT,
        area_affected TEXT,
        remarks TEXT,
        raw_data TEXT,
        created_at TEXT DEFAULT CURRENT_TIMESTAMP,
        updated_at TEXT DEFAULT CURRENT_TIMESTAMP
    )",
    "CREATE TABLE IF NOT EXISTS flight_plans (
        id INTEGER PRIMARY KEY AUTOINCREMENT,
        callsign TEXT,
        flight_number TEXT,
        aircraft_type TEXT,
        registration TEXT,
        departure_icao TEXT,
        arrival_icao TEXT,
        alternate_icao TEXT,
        departure_time TEXT,
        arrival_time TEXT,
        eobt TEXT,
        atd TEXT,
        eta TEXT,
        ata TEXT,
        flight_rules TEXT,
        flight_type TEXT,
        route TEXT,
        cruise_altitude TEXT,
        cruise_speed TEXT,
        endurance TEXT,
        persons_on_board INTEGER,
        remarks TEXT,
        status TEXT,
        direction TEXT,
        crawled_date TEXT,
        raw_data TEXT,
        created_at TEXT DEFAULT CURRENT_TIMESTAMP,
        updated_at TEXT DEFAULT CURRENT_TIMESTAMP,
        UNIQUE(callsign, departure_time, crawled_date)
    )",
    "CREATE TABLE IF NOT EXISTS metar (
        id INTEGER PRIMARY KEY AUTOINCREMENT,
        airport_icao TEXT,
        observation_time TEXT,
        raw_metar TEXT,
        wind_direction INTEGER,
        wind_speed INTEGER,
        wind_gust INTEGER,
        visibility_m INTEGER,
        weather TEXT,
        clouds TEXT,
        temperature INTEGER,
        dewpoint INTEGER,
        pressure_hpa INTEGER,
        remarks TEXT,
        created_at TEXT DEFAULT CURRENT_TIMESTAMP,
        UNIQUE(airport_icao, observation_time)
    )",
    "CREATE TABLE IF NOT EXISTS taf (
        id INTEGER PRIMARY KEY AUTOINCREMENT,
        airport_icao TEXT,
        issue_time TEXT,
        valid_from TEXT,
        valid_to TEXT,
        raw_taf TEXT,
        created_at TEXT DEFAULT CURRENT_TIMESTAMP,
        UNIQUE(airport_icao, issue_time)
    )",
    "CREATE TABLE IF NOT EXISTS sigmet (
        id INTEGER PRIMARY KEY AUTOINCREMENT,
        sigmet_id TEXT UNIQUE,
        fir TEXT,
        phenomenon TEXT,
        valid_from TEXT,
        valid_to TEXT,
        area TEXT,
        level TEXT,
        movement TEXT,
        intensity TEXT,
        raw_sigmet TEXT,
        created_at TEXT DEFAULT CURRENT_TIMESTAMP
    )",
    "CREATE INDEX IF NOT EXISTS idx_notam_fir_valid FROM notam_fir(valid_from)",
    "CREATE INDEX IF NOT EXISTS idx_notam_ad_airport ON notam_ad(airport_icao)",
    "CREATE INDEX IF NOT EXISTS idx_runways_airport ON runways(airport_icao)",
    "CREATE INDEX IF NOT EXISTS idx_navaids_airport ON navaids(airport_icao)",
    "CREATE INDEX IF NOT EXISTS idx_flight_plans_date ON flight_plans(crawled_date)",
    "CREATE INDEX IF NOT EXISTS idx_metar_airport ON metar(airport_icao)" ]

/-- Whitespace characters for SQL tokenization. -/
def isWsChar (c : Char) : Bool :=
  c = ' ' || c = '\n' || c = '\t' || c = '\r'

/-- Accumulating word splitter over a character list. -/
def wordsAux : List Char → List Char → List (List Char)
  | [], acc => if acc.isEmpty then [] else [acc.reverse]
  | c :: cs, acc =>
    if isWsChar c then
      if acc.isEmpty then wordsAux cs [] else acc.reverse :: wordsAux cs []
    else wordsAux cs (c :: acc)

/-- Whitespace-separated tokens of an SQL statement. -/
def sqlTokens (s : String) : List String :=
  (wordsAux s.toList []).map (fun w => String.mk w)

/-- SQLite statement compilation, to the depth the claims need: `CREATE
TABLE` statements compile; a `CREATE INDEX` statement compiles exactly when
the token after the (possibly `IF NOT EXISTS`-guarded) index name is `ON`. -/
def stmtOk (s : String) : Bool :=
  match sqlTokens s with
  | "CREATE" :: "TABLE" :: _ => true
  | "CREATE" :: "INDEX" :: rest =>
    (match (match rest with
            | "IF" :: "NOT" :: "EXISTS" :: r => r
            | r => r) with
     | _ :: "ON" :: _ => true
     | _ => false)
  | _ => false

/-- `cursor.execute` over a statement sequence: the first statement that
fails to compile raises `sqlite3.OperationalError`, abandoning the rest. -/
def execStmts : List String → Except String Unit
  | [] => .ok ()
  | s :: rest =>
    if stmtOk s then execStmts rest
    else .error ("OperationalError: syntax error in: " ++ s)

/-- The store handle produced by a successful `UBIKAISDatabase.__init__`. -/
structure UBIKAISDatabase where
  db_path : String

/-- `UBIKAISDatabase.__init__` → `_init_database` → `_create_tables`: runs
every DDL statement, with no exception handler anywhere on the path; a
statement failure propagates out of the constructor. -/
def UBIKAISDatabase.init (db_path : String) : Except String UBIKAISDatabase :=
  match execStmts createTableStatements with
  | .ok _ => .ok ⟨db_path⟩
  | .error e => .error e

/-- Claim C1 (confirmed): for every database path, constructing the store
fails with an exception rather than returning an initialized store — the
statement `CREATE INDEX IF NOT EXISTS idx_notam_fir_valid FROM
notam_fir(valid_from)` has `FROM` where the SQLite grammar requires `ON`,
does not compile, and is executed outside any exception handler. -/
theorem claim_C1 :
    (∀ db_path : String, ∃ e, UBIKAISDatabase.init db_path = Except.error e) ∧
    stmtOk "CREATE INDEX IF NOT EXISTS idx_notam_fir_valid FROM notam_fir(valid_from)" = false :=
  ⟨fun _ => ⟨_, rfl⟩, rfl⟩

/-! ## Upsert store: FIR NOTAM, AD NOTAM and METAR persistence

Rows are modeled structure-per-table with one `PyVal` per column bound by
the `INSERT OR REPLACE` statement (the `id` autoincrement column and the
`created_at` default column, never bound by the source inserts, are
omitted).  `INSERT OR REPLACE` is modeled by SQLite's semantics: delete
every existing row that conflicts with the new row on the table's UNIQUE
constraint — two rows conflict only when the constrained columns are equal
and non-NULL — then append the new row. -/

/-- A row of the `notam_fir` table (UNIQUE on `notam_id`). -/
structure NotamFirRow where
  notam_id : PyVal
  series : PyVal
  number : PyVal
  year : PyVal
  type : PyVal
  fir : PyVal
  q_code : PyVal
  traffic : PyVal
  purpose : PyVal
  scope : PyVal
  lower_limit : PyVal
  upper_limit : PyVal
  coordinates : PyVal
  radius : PyVal
  location : PyVal
  valid_from : PyVal
  valid_to : PyVal
  schedule : PyVal
  full_text : PyVal
  raw_data : PyVal
  updated_at : PyVal
deriving DecidableEq, Repr

/-- The natural-key alias chain of `save_notam_fir` / `save_notam_ad`:
`notam.get('notamId') or notam.get('notamNo') or notam.get('id')`. -/
def firKey (n : Rec) : PyVal :=
  pyOr (rget n "notamId") (pyOr (rget n "notamNo") (rget n "id"))

/-- The column values bound by the `save_notam_fir` insert, each resolved
through its alias chain exactly as in the source. -/
def firRowVals (now : String) (n : Rec) (nid : PyVal) : NotamFirRow where
  notam_id := nid
  series := rget n "series"
  number := rget n "number"
  year := rget n "year"
  type := pyOr (rget n "type") (rget n "notamType")
  fir := pyOr (rget n "fir") (PyVal.str "RKRR")
  q_code := rget n "qCode"
  traffic := rget n "traffic"
  purpose := rget n "purpose"
  scope := rget n "scope"
  lower_limit := pyOr (rget n "lowerLimit") (rget n "flLower")
  upper_limit := pyOr (rget n "upperLimit") (rget n "flUpper")
  coordinates := pyOr (rget n "coordinates") (rget n "coord")
  radius := rget n "radius"
  location := pyOr (rget n "location") (rget n "ad")
  valid_from := pyOr (rget n "validFrom") (rget n "fromDt")
  valid_to := pyOr (rget n "validTo") (rget n "toDt")
  schedule := rget n "schedule"
  full_text := pyOr (rget n "fullText") (pyOr (rget n "notamText") (rget n "eText"))
  raw_data := PyVal.str (recDumps n)
  updated_at := PyVal.str now

/-- The parameter tuple of the `save_notam_fir` insert, in bind order. -/
def NotamFirRow.params (r : NotamFirRow) : List PyVal :=
  [r.notam_id, r.series, r.number, r.year, r.type, r.fir, r.q_code, r.traffic,
   r.purpose, r.scope, r.lower_limit, r.upper_limit, r.coordinates, r.radius,
   r.location, r.valid_from, r.valid_to, r.schedule, r.full_text, r.raw_data,
   r.updated_at]

/-- `INSERT OR REPLACE INTO notam_fir`: delete rows conflicting on the
`notam_id` UNIQUE constraint (NULLs never conflict), then append. -/
def firReplace (t : List NotamFirRow) (r : NotamFirRow) : List NotamFirRow :=
  t.filter (fun x => !(decide (x.notam_id = r.notam_id ∧ r.notam_id ≠ PyVal.none))) ++ [r]

/-- One loop iteration of `save_notam_fir` on one upstream record: resolve
the natural key, `continue` when it is falsy, attempt the insert (binding a
nested value raises, the bare `except` swallows it), else insert-or-replace
and count the row. -/
def firRow? (now : String) (n : Rec) : Option NotamFirRow :=
  let nid := firKey n
  if truthy nid then
    let r := firRowVals now n nid
    if r.params.all bindOk then some r else none
  else none

/-- Fold step of the `save_notam_fir` record loop. -/
def firStep (now : String) (acc : List NotamFirRow × ℕ) (n : Rec) :
    List NotamFirRow × ℕ :=
  match firRow? now n with
  | some r => (firReplace acc.1 r, acc.2 + 1)
  | none => acc

/-- `UBIKAISDatabase.save_notam_fir`: early-returns 0 on an empty batch,
else processes each record of the batch in order, returning the updated
table and the count of rows written. -/
def save_notam_fir (now : String) (t : List NotamFirRow) (notam_list : List Rec) :
    List NotamFirRow × ℕ :=
  if notam_list.isEmpty then (t, 0)
  else notam_list.foldl (firStep now) (t, 0)

/-- A row of the `notam_ad` table (UNIQUE on `(notam_id, airport_icao)`). -/
structure NotamAdRow where
  notam_id : PyVal
  airport_icao : PyVal
  series : PyVal
  number : PyVal
  year : PyVal
  type : PyVal
  q_code : PyVal
  traffic : PyVal
  purpose : PyVal
  scope : PyVal
  lower_limit : PyVal
  upper_limit : PyVal
  coordinates : PyVal
  radius : PyVal
  valid_from : PyVal
  valid_to : PyVal
  schedule : PyVal
  full_text : PyVal
  raw_data : PyVal
  updated_at : PyVal
deriving DecidableEq, Repr

/-- The airport code alias chain of `save_notam_ad`:
`airport_icao or notam.get('ad') or notam.get('airport')`. -/
def adIcao (airport_icao : PyVal) (n : Rec) : PyVal :=
  pyOr airport_icao (pyOr (rget n "ad") (rget n "airport"))

/-- The column values bound by the `save_notam_ad` insert. -/
def adRowVals (now : String) (n : Rec) (nid icao : PyVal) : NotamAdRow where
  notam_id := nid
  airport_icao := icao
  series := rget n "series"
  number := rget n "number"
  year := rget n "year"
  type := pyOr (rget n "type") (rget n "notamType")
  q_code := rget n "qCode"
  traffic := rget n "traffic"
  purpose := rget n "purpose"
  scope := rget n "scope"
  lower_limit := pyOr (rget n "lowerLimit") (rget n "flLower")
  upper_limit := pyOr (rget n "upperLimit") (rget n "flUpper")
  coordinates := pyOr (rget n "coordinates") (rget n "coord")
  radius := rget n "radius"
  valid_from := pyOr (rget n "validFrom") (rget n "fromDt")
  valid_to := pyOr (rget n "validTo") (rget n "toDt")
  schedule := rget n "schedule"
  full_text := pyOr (rget n "fullText") (pyOr (rget n "notamText") (rget n "eText"))
  raw_data := PyVal.str (recDumps n)
  updated_at := PyVal.str now

/-- The parameter tuple of the `save_notam_ad` insert, in bind order. -/
def NotamAdRow.params (r : NotamAdRow) : List PyVal :=
  [r.notam_id, r.airport_icao, r.series, r.number, r.year, r.type, r.q_code,
   r.traffic, r.purpose, r.scope, r.lower_limit, r.upper_limit, r.coordinates,
   r.radius, r.valid_from, r.valid_to, r.schedule, r.full_text, r.raw_data,
   r.updated_at]

/-- `INSERT OR REPLACE INTO notam_ad`: conflict on the composite
`(notam_id, airport_icao)` UNIQUE constraint, NULLs never conflicting. -/
def adReplace (t : List NotamAdRow) (r : NotamAdRow) : List NotamAdRow :=
  t.filter (fun x => !(decide (x.notam_id = r.notam_id ∧ x.airport_icao = r.airport_icao ∧
      r.notam_id ≠ PyVal.none ∧ r.airport_icao ≠ PyVal.none))) ++ [r]

/-- One loop iteration of `save_notam_ad`: the skip guard tests only the
NOTAM id, not the airport code. -/
def adRow? (now : String) (airport_icao : PyVal) (n : Rec) : Option NotamAdRow :=
  let nid := firKey n
  let icao := adIcao airport_icao n
  if truthy nid then
    let r := adRowVals now n nid icao
    if r.params.all bindOk then some r else none
  else none

/-- Fold step of the `save_notam_ad` record loop. -/
def adStep (now : String) (airport_icao : PyVal) (acc : List NotamAdRow × ℕ)
    (n : Rec) : List NotamAdRow × ℕ :=
  match adRow? now airport_icao n with
  | some r => (adReplace acc.1 r, acc.2 + 1)
  | none => acc

/-- `UBIKAISDatabase.save_notam_ad`. -/
def save_notam_ad (now : String) (airport_icao : PyVal) (t : List NotamAdRow)
    (notam_list : List Rec) : List NotamAdRow × ℕ :=
  if notam_list.isEmpty then (t, 0)
  else notam_list.foldl (adStep now airport_icao) (t, 0)

/-- A row of the `metar` table (UNIQUE on
`(airport_icao, observation_time)`). -/
structure MetarRow where
  airport_icao : PyVal
  observation_time : PyVal
  raw_metar : PyVal
  wind_direction : PyVal
  wind_speed : PyVal
  wind_gust : PyVal
  visibility_m : PyVal
  weather : PyVal
  clouds : PyVal
  temperature : PyVal
  dewpoint : PyVal
  pressure_hpa : PyVal
  remarks : PyVal
deriving DecidableEq, Repr

/-- The column values bound by the `save_metar` insert — note there is no
natural-key guard anywhere in `save_metar`. -/
def metarRowVals (m : Rec) : MetarRow where
  airport_icao := pyOr (rget m "airport") (rget m "ad")
  observation_time := pyOr (rget m "obsTime") (rget m "time")
  raw_metar := pyOr (rget m "rawMetar") (pyOr (rget m "metar") (rget m "orgMsg"))
  wind_direction := rget m "windDir"
  wind_speed := pyOr (rget m "windSpeed") (rget m "ws")
  wind_gust := rget m "windGust"
  visibility_m := pyOr (rget m "visibility") (rget m "vis")
  weather := rget m "weather"
  clouds := rget m "clouds"
  temperature := pyOr (rget m "temperature") (rget m "temp")
  dewpoint := pyOr (rget m "dewpoint") (rget m "dp")
  pressure_hpa := pyOr (rget m "pressure") (rget m "qnh")
  remarks := rget m "remarks"

/-- The parameter tuple of the `save_metar` insert, in bind order. -/
def MetarRow.params (r : MetarRow) : List PyVal :=
  [r.airport_icao, r.observation_time, r.raw_metar, r.wind_direction,
   r.wind_speed, r.wind_gust, r.visibility_m, r.weather, r.clouds,
   r.temperature, r.dewpoint, r.pressure_hpa, r.remarks]

/-- `INSERT OR REPLACE INTO metar`: conflict on the composite
`(airport_icao, observation_time)` UNIQUE constraint. -/
def metarReplace (t : List MetarRow) (r : MetarRow) : List MetarRow :=
  t.filter (fun x => !(decide (x.airport_icao = r.airport_icao ∧
      x.observation_time = r.observation_time ∧
      r.airport_icao ≠ PyVal.none ∧ r.observation_time ≠ PyVal.none))) ++ [r]

/-- `UBIKAISDatabase.save_metar`: a single-record save; the insert is
attempted unconditionally and the `True`/`False` return signals whether the
row was written. -/
def save_metar (t : List MetarRow) (m : Rec) : List MetarRow × Bool :=
  let r := metarRowVals m
  if r.params.all bindOk then (metarReplace t r, true) else (t, false)

/-! ### Lemmas about the upsert store -/

theorem truthy_ne_none {v : PyVal} (h : truthy v = true) : v ≠ PyVal.none := by
  intro hv
  subst hv
  simp [truthy] at h

theorem save_notam_fir_eq_foldl (now : String) (t : List NotamFirRow)
    (l : List Rec) : save_notam_fir now t l = l.foldl (firStep now) (t, 0) := by
  cases l <;> simp [save_notam_fir]

theorem save_notam_ad_eq_foldl (now : String) (ap : PyVal) (t : List NotamAdRow)
    (l : List Rec) :
    save_notam_ad now ap t l = l.foldl (adStep now ap) (t, 0) := by
  cases l <;> simp [save_notam_ad]

/-- Filtering an insert-or-replace result by the new row's key yields
exactly the new row, provided key-match implies constraint-conflict. -/
theorem filter_replace_generic {α : Type} (p q : α → Bool) (t : List α) (r : α)
    (hqr : q r = true) (himp : ∀ x, q x = true → p x = true) :
    ((t.filter (fun x => !p x)) ++ [r]).filter q = [r] := by
  rw [List.filter_append]
  have h1 : (t.filter (fun x => !p x)).filter q = [] := by
    rw [List.filter_eq_nil_iff]
    intro a ha hq
    have hp : (!p a) = true := (List.mem_filter.mp ha).2
    have := himp a hq
    simp [this] at hp
  rw [h1]
  simp [hqr]

theorem fir_skip_of_none {now : String} {r : Rec} (h : firRow? now r = none)
    (t : List NotamFirRow) (pre post : List Rec) :
    save_notam_fir now t (pre ++ r :: post) = save_notam_fir now t (pre ++ post) := by
  rw [save_notam_fir_eq_foldl, save_notam_fir_eq_foldl, List.foldl_append,
    List.foldl_append, List.foldl_cons]
  simp [firStep, h]

theorem ad_skip_of_none {now : String} {ap : PyVal} {r : Rec}
    (h : adRow? now ap r = none) (t : List NotamAdRow) (pre post : List Rec) :
    save_notam_ad now ap t (pre ++ r :: post) = save_notam_ad now ap t (pre ++ post) := by
  rw [save_notam_ad_eq_foldl, save_notam_ad_eq_foldl, List.foldl_append,
    List.foldl_append, List.foldl_cons]
  simp [adStep, h]

theorem fir_foldl_count (now : String) (recs : List Rec) :
    ∀ acc : List NotamFirRow × ℕ,
      (recs.foldl (firStep now) acc).2
        = acc.2 + recs.countP (fun r => (firRow? now r).isSome) := by
  induction recs with
  | nil => intro acc; simp
  | cons r rs ih =>
    intro acc
    rw [List.foldl_cons, ih, List.countP_cons]
    cases h : firRow? now r
    · simp [firStep, h]
    · simp [firStep, h]
      omega

/-- Claim C2, counterexample: `save_metar` has no natural-key guard — the
empty record, whose natural-key fields all resolve to absence, is stored
anyway (as a row of NULLs) instead of being silently skipped. -/
theorem claim_C2_counterexample :
    (save_metar [] []).1.length = 1 ∧ (save_metar [] []).2 = true ∧
    (metarRowVals []).airport_icao = PyVal.none ∧
    (metarRowVals []).observation_time = PyVal.none := by
  decide

/-- Claim C2 as amended: the batch NOTAM save operations (`save_notam_fir`,
`save_notam_ad`) silently skip a record whose natural-key alias chain
resolves to a falsy value — the batch result is exactly the result of the
batch without that record, so the remaining records are still processed and
no exception escapes; but the single-record save operations (`save_metar`)
have no such guard and store the record even when the key is absent. -/
theorem claim_C2 :
    (∀ (now : String) (t : List NotamFirRow) (pre post : List Rec) (r : Rec),
      truthy (firKey r) = false →
      save_notam_fir now t (pre ++ r :: post) = save_notam_fir now t (pre ++ post)) ∧
    (∀ (now : String) (ap : PyVal) (t : List NotamAdRow) (pre post : List Rec) (r : Rec),
      truthy (firKey r) = false →
      save_notam_ad now ap t (pre ++ r :: post) = save_notam_ad now ap t (pre ++ post)) := by
  constructor
  · intro now t pre post r h
    exact fir_skip_of_none (by simp [firRow?, h]) t pre post
  · intro now ap t pre post r h
    exact ad_skip_of_none (by simp [adRow?, h]) t pre post

/-- Claim C2 witness: a three-record FIR batch whose middle record lacks
every natural-key alias is saved exactly like the two-record batch without
it. -/
theorem claim_C2_witness :
    save_notam_fir "T" [] ([[("notamId", PyVal.str "A0001/26")]] ++
        [("series", PyVal.str "A")] :: [[("notamId", PyVal.str "A0002/26")]])
      = save_notam_fir "T" [] ([[("notamId", PyVal.str "A0001/26")]] ++
        [[("notamId", PyVal.str "A0002/26")]]) :=
  claim_C2.1 "T" [] [[("notamId", PyVal.str "A0001/26")]]
    [[("notamId", PyVal.str "A0002/26")]] [("series", PyVal.str "A")] (by decide)

/-- Claim C3 (confirmed for the cited save operations): saving the same
record twice leaves exactly one row under its natural key, and that row
carries the column values bound by the second call. -/
theorem claim_C3 :
    (∀ (now1 now2 : String) (t : List NotamFirRow) (n : Rec),
      truthy (firKey n) = true →
      (firRowVals now2 n (firKey n)).params.all bindOk = true →
      ((save_notam_fir now2 (save_notam_fir now1 t [n]).1 [n]).1.filter
          (fun x => decide (x.notam_id = firKey n)))
        = [firRowVals now2 n (firKey n)]) ∧
    (∀ (now1 now2 : String) (ap : PyVal) (t : List NotamAdRow) (n : Rec),
      truthy (firKey n) = true →
      adIcao ap n ≠ PyVal.none →
      (adRowVals now2 n (firKey n) (adIcao ap n)).params.all bindOk = true →
      ((save_notam_ad now2 ap (save_notam_ad now1 ap t [n]).1 [n]).1.filter
          (fun x => decide (x.notam_id = firKey n ∧ x.airport_icao = adIcao ap n)))
        = [adRowVals now2 n (firKey n) (adIcao ap n)]) ∧
    (∀ (t : List MetarRow) (m : Rec),
      (metarRowVals m).airport_icao ≠ PyVal.none →
      (metarRowVals m).observation_time ≠ PyVal.none →
      (metarRowVals m).params.all bindOk = true →
      ((save_metar (save_metar t m).1 m).1.filter
          (fun x => decide (x.airport_icao = (metarRowVals m).airport_icao ∧
            x.observation_time = (metarRowVals m).observation_time)))
        = [metarRowVals m]) := by
  refine ⟨?_, ?_, ?_⟩
  · intro now1 now2 t n hk hb
    have hrow : firRow? now2 n = some (firRowVals now2 n (firKey n)) := by
      simp [firRow?, hk, hb]
    have hsave : ∀ t' : List NotamFirRow,
        (save_notam_fir now2 t' [n]).1 = firReplace t' (firRowVals now2 n (firKey n)) := by
      intro t'
      simp [save_notam_fir, firStep, hrow]
    rw [hsave]
    unfold firReplace
    apply filter_replace_generic
    · simp only [decide_eq_true_eq]
      rfl
    · intro x hx
      simp only [decide_eq_true_eq] at hx ⊢
      exact ⟨hx, truthy_ne_none hk⟩
  · intro now1 now2 ap t n hk hic hb
    have hrow : adRow? now2 ap n = some (adRowVals now2 n (firKey n) (adIcao ap n)) := by
      simp [adRow?, hk, hb]
    have hsave : ∀ t' : List NotamAdRow,
        (save_notam_ad now2 ap t' [n]).1
          = adReplace t' (adRowVals now2 n (firKey n) (adIcao ap n)) := by
      intro t'
      simp [save_notam_ad, adStep, hrow]
    rw [hsave]
    unfold adReplace
    apply filter_replace_generic
    · simp only [decide_eq_true_eq]
      exact ⟨rfl, rfl⟩
    · intro x hx
      simp only [decide_eq_true_eq] at hx ⊢
      exact ⟨hx.1, hx.2, truthy_ne_none hk, hic⟩
  · intro t m ha ho hb
    have hsave : ∀ t' : List MetarRow,
        (save_metar t' m).1 = metarReplace t' (metarRowVals m) := by
      intro t'
      simp [save_metar, hb]
    rw [hsave]
    unfold metarReplace
    apply filter_replace_generic
    · simp
    · intro x hx
      simp only [decide_eq_true_eq] at hx ⊢
      exact ⟨hx.1, hx.2, ha, ho⟩

/-- Claim C3 witness: a concrete FIR NOTAM record saved twice (with
different call timestamps) leaves exactly the second call's row under its
NOTAM id. -/
theorem claim_C3_witness :
    ((save_notam_fir "T2" (save_notam_fir "T1" []
          [[("notamId", PyVal.str "A0001/26"), ("series", PyVal.str "A")]]).1
        [[("notamId", PyVal.str "A0001/26"), ("series", PyVal.str "A")]]).1.filter
        (fun x => decide (x.notam_id
          = firKey [("notamId", PyVal.str "A0001/26"), ("series", PyVal.str "A")])))
      = [firRowVals "T2" [("notamId", PyVal.str "A0001/26"), ("series", PyVal.str "A")]
          (firKey [("notamId", PyVal.str "A0001/26"), ("series", PyVal.str "A")])] :=
  claim_C3.1 "T1" "T2" [] [("notamId", PyVal.str "A0001/26"), ("series", PyVal.str "A")]
    (by decide) (by decide)

/-- Claim C8 (confirmed): the FIR batch save is a no-op returning 0 on the
empty batch; a record whose insert raises (an unbindable parameter after a
present natural key) is caught and contributes nothing, the rest of the
batch proceeding unchanged; and the returned count is exactly the number
of records actually written. -/
theorem claim_C8 :
    (∀ (now : String) (t : List NotamFirRow), save_notam_fir now t [] = (t, 0)) ∧
    (∀ (now : String) (t : List NotamFirRow) (pre post : List Rec) (r : Rec),
      truthy (firKey r) = true →
      (firRowVals now r (firKey r)).params.all bindOk = false →
      save_notam_fir now t (pre ++ r :: post) = save_notam_fir now t (pre ++ post)) ∧
    (∀ (now : String) (t : List NotamFirRow) (recs : List Rec),
      (save_notam_fir now t recs).2 = recs.countP (fun r => (firRow? now r).isSome)) := by
  refine ⟨fun now t => rfl, ?_, ?_⟩
  · intro now t pre post r hk hb
    exact fir_skip_of_none (by simp [firRow?, hk, hb]) t pre post
  · intro now t recs
    rw [save_notam_fir_eq_foldl, fir_foldl_count]
    simp

/-- Claim C8 witness: a batch whose middle record carries a nested (hence
unbindable) `series` value alongside a present NOTAM id saves exactly like
the batch without it. -/
theorem claim_C8_witness :
    save_notam_fir "T" [] ([[("notamId", PyVal.str "A0001/26")]] ++
        [("notamId", PyVal.str "A1"), ("series", PyVal.nested "[1, 2]")] ::
        [[("notamId", PyVal.str "A0002/26")]])
      = save_notam_fir "T" [] ([[("notamId", PyVal.str "A0001/26")]] ++
        [[("notamId", PyVal.str "A0002/26")]]) :=
  claim_C8.2.1 "T" [] [[("notamId", PyVal.str "A0001/26")]]
    [[("notamId", PyVal.str "A0002/26")]]
    [("notamId", PyVal.str "A1"), ("series", PyVal.nested "[1, 2]")]
    (by decide) (by decide)

/-- A FIR NOTAM row with its `raw_data` column blanked, for comparing rows
up to the verbatim-retained upstream JSON. -/
def eraseRaw (r : NotamFirRow) : NotamFirRow := { r with raw_data := PyVal.none }

/-- Claim C6, counterexample: an object carrying the NOTAM id only under
the alias `notamNo` and the object carrying it under the primary `notamId`
both produce a row, but the rows are not equal — the `raw_data` column
retains each object's own serialized JSON, which differ. -/
theorem claim_C6_counterexample :
    (firRow? "T" [("notamNo", PyVal.str "A0001/26")]).isSome = true ∧
    (firRow? "T" [("notamId", PyVal.str "A0001/26")]).isSome = true ∧
    firRow? "T" [("notamNo", PyVal.str "A0001/26")]
      ≠ firRow? "T" [("notamId", PyVal.str "A0001/26")] := by
  decide

/-- Claim C6 as amended: for an upstream object whose primary key name
`notamId` resolves to absence but which carries a truthy value under the
alias `notamNo`, the mapper resolves the natural key through the alias
chain and produces the same outcome — same skip/error/row decision and the
same row in every column except `raw_data` — as for the object extended
with that value under the primary name (whose `raw_data`, the verbatim
upstream JSON, necessarily differs). -/
theorem claim_C6 :
    ∀ (now : String) (n : Rec) (v : PyVal),
      rget n "notamId" = PyVal.none → rget n "notamNo" = v → truthy v = true →
      (firRow? now n).map eraseRaw
        = (firRow? now (("notamId", v) :: n)).map eraseRaw := by
  intro now n v h1 h2 hv
  have hget : ∀ k, ("notamId" = k) = False → rget (("notamId", v) :: n) k = rget n k := by
    intro k hk
    simp [rget, hk]
  have hpyOr_none : ∀ x, pyOr PyVal.none x = x := by
    intro x
    simp [pyOr, truthy]
  have hpyOr_truthy : ∀ x, pyOr v x = v := by
    intro x
    simp [pyOr, hv]
  have hkey : firKey n = v := by
    unfold firKey
    rw [h1, h2, hpyOr_none, hpyOr_truthy]
  have hkey' : firKey (("notamId", v) :: n) = v := by
    have hr : rget (("notamId", v) :: n) "notamId" = v := by simp [rget]
    unfold firKey
    rw [hr, hpyOr_truthy]
  have hvals : eraseRaw (firRowVals now (("notamId", v) :: n) v)
      = eraseRaw (firRowVals now n v) := by
    simp only [firRowVals, eraseRaw]
    congr 1 <;> rw [hget] <;> simp
  have hbind : (firRowVals now (("notamId", v) :: n) v).params.all bindOk
      = (firRowVals now n v).params.all bindOk := by
    simp only [NotamFirRow.params, firRowVals, List.all_cons, List.all_nil]
    rw [hget "series" (by simp), hget "number" (by simp), hget "year" (by simp),
      hget "type" (by simp), hget "notamType" (by simp), hget "fir" (by simp),
      hget "qCode" (by simp), hget "traffic" (by simp), hget "purpose" (by simp),
      hget "scope" (by simp), hget "lowerLimit" (by simp), hget "flLower" (by simp),
      hget "upperLimit" (by simp), hget "flUpper" (by simp),
      hget "coordinates" (by simp), hget "coord" (by simp), hget "radius" (by simp),
      hget "location" (by simp), hget "ad" (by simp), hget "validFrom" (by simp),
      hget "fromDt" (by simp), hget "validTo" (by simp), hget "toDt" (by simp),
      hget "schedule" (by simp), hget "fullText" (by simp),
      hget "notamText" (by simp), hget "eText" (by simp)]
    simp [bindOk]
  simp only [firRow?, hkey, hkey', hv, if_true]
  rw [hbind]
  cases hb : (firRowVals now n v).params.all bindOk
  · simp
  · simp [hvals]

/-- Claim C6 witness: the alias-keyed object `{"notamNo": "A0001/26"}` and
its primary-keyed extension map to rows agreeing outside `raw_data`. -/
theorem claim_C6_witness :
    (firRow? "T" [("notamNo", PyVal.str "A0001/26")]).map eraseRaw
      = (firRow? "T" (("notamId", PyVal.str "A0001/26")
          :: [("notamNo", PyVal.str "A0001/26")])).map eraseRaw :=
  claim_C6 "T" [("notamNo", PyVal.str "A0001/26")] (PyVal.str "A0001/26")
    (by decide) (by decide) (by decide)

/-! ## Fetch-with-retry client (`UnifiedAviationCrawler._request_with_retry`)

One attempt of `self.session.get(...)` either raises (network failure,
timeout) or yields an HTTP response; the sequence of attempt outcomes is
modeled as an oracle `ℕ → FetchOutcome` indexed by the loop's `attempt`
counter.  Besides the returned value the model collects the trace of
`time.sleep` durations, so the backoff schedule is itself observable. -/

/-- Outcome of one `session.get` attempt. -/
inductive FetchOutcome where
  | exc (msg : String) : FetchOutcome
  | resp (status : ℕ) (body : String) : FetchOutcome

/-- An HTTP response as far as the retry loop observes it. -/
structure HttpResp where
  status : ℕ
  body : String
deriving DecidableEq, Repr

/-- An attempt that the loop treats as a failure: an exception, or a
response with a non-200 status. -/
def isFailure : FetchOutcome → Bool
  | .exc _ => true
  | .resp s _ => s ≠ 200

/-- The retry loop body, from the current `attempt` index with the given
number of loop iterations remaining: a 200 response returns immediately; a
non-200 response falls through to the next iteration with no sleep; an
exception sleeps `retry_delay * (attempt + 1)` — only when this is not the
last attempt — and continues.  Returns the result and the sleep trace. -/
def retryAux (delay : ℚ) (oc : ℕ → FetchOutcome) :
    ℕ → ℕ → Option HttpResp × List ℚ
  | _, 0 => (none, [])
  | attempt, remaining + 1 =>
    match oc attempt with
    | .resp s b =>
      if s = 200 then (some ⟨s, b⟩, [])
      else retryAux delay oc (attempt + 1) remaining
    | .exc _ =>
      if remaining = 0 then (none, [])
      else
        let r := retryAux delay oc (attempt + 1) remaining
        (r.1, delay * ((attempt + 1 : ℕ) : ℚ) :: r.2)

/-- `UnifiedAviationCrawler._request_with_retry` with the configured
`retry_count` and `retry_delay`: loops `attempt` over
`range(retry_count)` and returns the first 200 response, else `None`. -/
def request_with_retry (retry_count : ℕ) (delay : ℚ) (oc : ℕ → FetchOutcome) :
    Option HttpResp × List ℚ :=
  retryAux delay oc 0 retry_count

/-! ### Lemmas about the retry loop -/

theorem retryAux_result_none (delay : ℚ) (oc : ℕ → FetchOutcome) :
    ∀ (rem att : ℕ), (∀ i, att ≤ i → i < att + rem → isFailure (oc i) = true) →
      (retryAux delay oc att rem).1 = none := by
  intro rem
  induction rem with
  | zero => intro att _; rfl
  | succ r ih =>
    intro att h
    have hnext : (retryAux delay oc (att + 1) r).1 = none :=
      ih (att + 1) (fun i h1 h2 => h i (by omega) (by omega))
    have hatt : isFailure (oc att) = true := h att (Nat.le_refl att) (by omega)
    cases o : oc att with
    | exc m =>
      cases r with
      | zero => simp [retryAux, o]
      | succ r' =>
        have h1 : (retryAux delay oc att (r' + 1 + 1)).1
            = (retryAux delay oc (att + 1) (r' + 1)).1 := by
          conv_lhs => rw [retryAux]
          simp [o]
        rw [h1, hnext]
    | resp s b =>
      have hs : s ≠ 200 := by
        rw [o] at hatt
        simpa [isFailure] using hatt
      have h1 : (retryAux delay oc att (r + 1)).1
          = (retryAux delay oc (att + 1) r).1 := by
        conv_lhs => rw [retryAux]
        simp [o, hs]
      rw [h1, hnext]

theorem retryAux_sleeps_exc (delay : ℚ) (oc : ℕ → FetchOutcome) :
    ∀ (rem att : ℕ), (∀ i, att ≤ i → i < att + rem → ∃ m, oc i = .exc m) →
      (retryAux delay oc att rem).2
        = (List.range' (att + 1) (rem - 1)).map (fun k => delay * (k : ℚ)) := by
  intro rem
  induction rem with
  | zero => intro att _; rfl
  | succ r ih =>
    intro att h
    obtain ⟨m, hm⟩ := h att (Nat.le_refl att) (by omega)
    cases r with
    | zero => simp [retryAux, hm]
    | succ r' =>
      have hrec : (retryAux delay oc (att + 1) (r' + 1)).2
          = (List.range' (att + 1 + 1) (r' + 1 - 1)).map (fun k => delay * (k : ℚ)) :=
        ih (att + 1) (fun i h1 h2 => h i (by omega) (by omega))
      have h2 : (retryAux delay oc att (r' + 1 + 1)).2
          = delay * ((att + 1 : ℕ) : ℚ) :: (retryAux delay oc (att + 1) (r' + 1)).2 := by
        conv_lhs => rw [retryAux]
        simp [hm]
      have hr' : List.range' (att + 1) (r' + 1 + 1 - 1)
          = (att + 1) :: List.range' (att + 1 + 1) r' := rfl
      rw [h2, hrec, hr']
      simp

theorem retryAux_sleeps_non200 (delay : ℚ) (oc : ℕ → FetchOutcome) :
    ∀ (rem att : ℕ), (∀ i, att ≤ i → i < att + rem → ∃ s b, oc i = .resp s b ∧ s ≠ 200) →
      (retryAux delay oc att rem).2 = [] := by
  intro rem
  induction rem with
  | zero => intro att _; rfl
  | succ r ih =>
    intro att h
    obtain ⟨s, b, ho, hs⟩ := h att (Nat.le_refl att) (by omega)
    have hnext : (retryAux delay oc (att + 1) r).2 = [] :=
      ih (att + 1) (fun i h1 h2 => h i (by omega) (by omega))
    have h2 : (retryAux delay oc att (r + 1)).2 = (retryAux delay oc (att + 1) r).2 := by
      conv_lhs => rw [retryAux]
      simp [ho, hs]
    rw [h2, hnext]

/-- Claim C7, counterexample: with `retry_count = 3`, `retry_delay = 1` and
two non-200 responses before a 200, the fetch retries and succeeds — but
the backoff sleeps the claim requires between the attempts never happen:
the sleep trace is empty, not `[1*1, 1*2]`, because the loop only sleeps
after an exception, never after a non-200 response. -/
theorem claim_C7_counterexample :
    request_with_retry 3 1
        (fun i => if i = 2 then .resp 200 "ok" else .resp 500 "err")
      = (some ⟨200, "ok"⟩, []) ∧
    ([] : List ℚ) ≠ [1 * 1, 1 * 2] := by
  constructor
  · rfl
  · simp

/-- Claim C7 as amended: the client retries both on exception and on
non-200 status up to the configured count; a fetch failing its first two
attempts and succeeding on the third returns the successful response; a
fetch whose attempts all fail returns absence (never an exception, the
function being total); and the linearly increasing backoff delays
`delay*1, delay*2, …` occur between attempts only when the failures are
exceptions — consecutive non-200 responses are retried with no delay. -/
theorem claim_C7 :
    (∀ (delay : ℚ) (oc : ℕ → FetchOutcome) (b : String),
      isFailure (oc 0) = true → isFailure (oc 1) = true → oc 2 = .resp 200 b →
      (request_with_retry 3 delay oc).1 = some ⟨200, b⟩) ∧
    (∀ (n : ℕ) (delay : ℚ) (oc : ℕ → FetchOutcome),
      (∀ i, i < n → isFailure (oc i) = true) →
      (request_with_retry n delay oc).1 = none) ∧
    (∀ (n : ℕ) (delay : ℚ) (oc : ℕ → FetchOutcome),
      (∀ i, i < n → ∃ m, oc i = .exc m) →
      (request_with_retry n delay oc).2
        = (List.range' 1 (n - 1)).map (fun k => delay * (k : ℚ))) ∧
    (∀ (n : ℕ) (delay : ℚ) (oc : ℕ → FetchOutcome),
      (∀ i, i < n → ∃ s b, oc i = .resp s b ∧ s ≠ 200) →
      (request_with_retry n delay oc).2 = []) := by
  refine ⟨?_, ?_, ?_, ?_⟩
  · intro delay oc b h0 h1 h2
    unfold request_with_retry
    cases o0 : oc 0 with
    | exc m =>
      cases o1 : oc 1 with
      | exc m' => simp [retryAux, o0, o1, h2]
      | resp s1 b1 =>
        have hs1 : s1 ≠ 200 := by
          rw [o1] at h1
          simpa [isFailure] using h1
        simp [retryAux, o0, o1, hs1, h2]
    | resp s0 b0 =>
      have hs0 : s0 ≠ 200 := by
        rw [o0] at h0
        simpa [isFailure] using h0
      cases o1 : oc 1 with
      | exc m' => simp [retryAux, o0, o1, hs0, h2]
      | resp s1 b1 =>
        have hs1 : s1 ≠ 200 := by
          rw [o1] at h1
          simpa [isFailure] using h1
        simp [retryAux, o0, o1, hs0, hs1, h2]
  · intro n delay oc h
    exact retryAux_result_none delay oc n 0 (fun i _ h2 => h i (by omega))
  · intro n delay oc h
    exact retryAux_sleeps_exc delay oc n 0 (fun i _ h2 => h i (by omega))
  · intro n delay oc h
    exact retryAux_sleeps_non200 delay oc n 0 (fun i _ h2 => h i (by omega))

/-- Claim C7 witness: a concrete run — exception, then 500, then 200 —
returns the third attempt's payload; and a three-exception run returns
absence with sleep trace `[d*1, d*2]` for `d = 1`. -/
theorem claim_C7_witness :
    (request_with_retry 3 1
        (fun i => if i = 0 then .exc "timeout"
                  else if i = 1 then .resp 500 "err" else .resp 200 "ok")).1
      = some ⟨200, "ok"⟩ ∧
    (request_with_retry 3 1 (fun _ => .exc "timeout")).1 = none ∧
    (request_with_retry 3 1 (fun _ => .exc "timeout")).2
      = (List.range' 1 2).map (fun k => (1 : ℚ) * (k : ℚ)) := by
  refine ⟨?_, ?_, ?_⟩
  · exact claim_C7.1 1
      (fun i => if i = 0 then .exc "timeout"
                else if i = 1 then .resp 500 "err" else .resp 200 "ok") "ok"
      (by simp [isFailure]) (by simp [isFailure]) (by simp)
  · exact claim_C7.2.1 3 1 (fun _ => .exc "timeout") (fun i _ => by simp [isFailure])
  · exact claim_C7.2.2.1 3 1 (fun _ => .exc "timeout") (fun i _ => ⟨"timeout", rfl⟩)

/-! ## Query façade (`lambda_handler.py`)

The façade reads the `flight_plans` table of the Lambda-side database (a
database produced outside this repository's sources); the row model carries
the columns the handlers reference: `flight_number`, `registration`,
`origin`, `destination`, `aircraft_type`, `status`, `plan_type`,
`created_at`, `std`, `sta`.  Response headers (CORS allow-list,
content-type) are not modeled: the claims concern only status codes and
bodies.  `ORDER BY created_at DESC` is modeled with a SQLite-style value
comparator; `LIKE '%x%'` is modeled as substring containment, faithful for
wildcard-free needles (the claims use none). -/

/-- A JSON value, for response bodies. -/
inductive Json where
  | null : Json
  | str (s : String) : Json
  | num (q : ℚ) : Json
  | bool (b : Bool) : Json
  | arr (xs : List Json) : Json
  | obj (fields : List (String × Json)) : Json

/-- JSON serialization of a stored SQLite value (stored rows never contain
nested values, which `sqlite3` cannot bind in the first place). -/
def PyVal.toJson : PyVal → Json
  | .none => .null
  | .str s => .str s
  | .num q => .num q
  | .bool b => .bool b
  | .nested t => .str t

/-- A row of the Lambda-side `flight_plans` table, with the columns the
façade reads. -/
structure FlightRow where
  flight_number : PyVal
  registration : PyVal
  origin : PyVal
  destination : PyVal
  aircraft_type : PyVal
  status : PyVal
  plan_type : PyVal
  created_at : PyVal
  std : PyVal
  sta : PyVal
deriving DecidableEq, Repr

/-- `dict_from_row`: the row serialized column-by-column. -/
def FlightRow.toJson (r : FlightRow) : Json :=
  .obj [("flight_number", r.flight_number.toJson),
        ("registration", r.registration.toJson),
        ("origin", r.origin.toJson),
        ("destination", r.destination.toJson),
        ("aircraft_type", r.aircraft_type.toJson),
        ("status", r.status.toJson),
        ("plan_type", r.plan_type.toJson),
        ("created_at", r.created_at.toJson),
        ("std", r.std.toJson),
        ("sta", r.sta.toJson)]

/-- Byte-order comparison of text values. -/
def charListLt : List Char → List Char → Bool
  | [], [] => false
  | [], _ :: _ => true
  | _ :: _, [] => false
  | a :: as, b :: bs => if a = b then charListLt as bs else decide (a.toNat < b.toNat)

/-- SQLite value ordering (NULL < numeric < text < blob; numerics by value,
text by byte order), to the depth the façade claims need — the claims'
conclusions do not depend on tie-breaking details. -/
def pvLe (a b : PyVal) : Bool :=
  match a, b with
  | .none, _ => true
  | _, .none => false
  | .num x, .num y => decide (x ≤ y)
  | .bool x, .bool y => decide ((if x then (1 : ℚ) else 0) ≤ (if y then 1 else 0))
  | .num x, .bool y => decide (x ≤ (if y then 1 else 0))
  | .bool x, .num y => decide ((if x then (1 : ℚ) else 0) ≤ y)
  | .num _, _ => true
  | .bool _, _ => true
  | .str _, .num _ => false
  | .str _, .bool _ => false
  | .str x, .str y => !charListLt y.toList x.toList
  | .str _, .nested _ => true
  | .nested _, .nested _ => true
  | .nested _, _ => false

/-- Ordered insertion for the sort model. -/
def insertBy {α : Type} (le : α → α → Bool) (x : α) : List α → List α
  | [] => [x]
  | y :: ys => if le x y then x :: y :: ys else y :: insertBy le x ys

/-- Insertion sort by a boolean comparator. -/
def sortBy {α : Type} (le : α → α → Bool) (l : List α) : List α :=
  l.foldr (insertBy le) []

/-- `ORDER BY created_at DESC` over flight rows. -/
def orderByCreatedAtDesc (rows : List FlightRow) : List FlightRow :=
  sortBy (fun a b => pvLe b.created_at a.created_at) rows

/-- Python `int(s)`: optional sign then decimal digits; raises (here:
`none`) otherwise. -/
def pyInt? (s : String) : Option ℤ :=
  let digits : List Char → Option ℤ := fun cs =>
    if cs.isEmpty then Option.none
    else if cs.all Char.isDigit then some (digitsToNat cs) else Option.none
  match s.toList with
  | '+' :: rest => digits rest
  | '-' :: rest => (digits rest).map (fun z => -z)
  | rest => digits rest

/-- ASCII uppercasing, modeling both SQLite `UPPER` and (on the ASCII
inputs at hand) Python `str.upper()`. -/
def upperStr (s : String) : String := String.mk (s.toList.map Char.toUpper)

/-- Whether `p` is a starting segment of `l`. -/
def charsStart (p l : List Char) : Bool :=
  match p, l with
  | [], _ => true
  | _ :: _, [] => false
  | a :: as, b :: bs => a = b && charsStart as bs

/-- Whether `p` occurs contiguously inside `l`. -/
def charsInfix (p l : List Char) : Bool :=
  charsStart p l ||
    match l with
    | [] => false
    | _ :: rest => charsInfix p rest

/-- `UPPER(flight_number) LIKE '%' || upper(cs) || '%'`: NULL never
matches; text matches by substring containment. -/
def likeCallsign (r : FlightRow) (cs : String) : Bool :=
  match r.flight_number with
  | .str s => charsInfix (upperStr cs).toList (upperStr s).toList
  | _ => false

/-- `UPPER(registration) = upper(reg)`: NULL never matches. -/
def regMatches (r : FlightRow) (rg : String) : Bool :=
  match r.registration with
  | .str s => upperStr s = upperStr rg
  | _ => false

/-- A Lambda proxy response, as far as the claims observe it. -/
structure LambdaResponse where
  statusCode : ℕ
  body : Json

/-- `create_response` (header construction not modeled). -/
def create_response (status_code : ℕ) (body : Json) : LambdaResponse :=
  ⟨status_code, body⟩

/-- The `{status: error, message}` envelope. -/
def errBody (msg : String) : Json :=
  .obj [("status", .str "error"), ("message", .str msg)]

/-- Query parameters of a request. -/
def QueryParams := List (String × String)

/-- `handle_flights`: optional `type` filter, `limit` via `int()` with
default 100 — `int()` raising on a non-numeric string is caught by the
handler's blanket `except`, which returns a 500 error envelope. -/
def handle_flights (db : List FlightRow) (params : QueryParams) : LambdaResponse :=
  match (match List.lookup "limit" params with
         | Option.none => some (100 : ℤ)
         | some s => pyInt? s) with
  | Option.none =>
    create_response 500 (errBody ("invalid literal for int() with base 10: "
      ++ (List.lookup "limit" params).getD ""))
  | some limit =>
    let plan_type := List.lookup "type" params
    let filtered :=
      match plan_type with
      | some t => if t ≠ "" then db.filter (fun r => decide (r.plan_type = PyVal.str t)) else db
      | Option.none => db
    let ordered := orderByCreatedAtDesc filtered
    let rows := if limit < 0 then ordered else ordered.take limit.toNat
    create_response 200 (.obj [("status", .str "success"),
      ("data", .obj [("count", .num rows.length),
                     ("flights", .arr (rows.map FlightRow.toJson))])])

/-- `handle_flight_route`: look a flight up by callsign substring, then by
exact (uppercased) registration; a miss on both is a 200 response with the
all-null body, not a 404. -/
def handle_flight_route (db : List FlightRow) (params : QueryParams) : LambdaResponse :=
  let callsign := List.lookup "callsign" params
  let reg := List.lookup "reg" params
  let truthyParam : Option String → Bool := fun o =>
    match o with
    | some s => s ≠ ""
    | Option.none => false
  if ¬(truthyParam callsign || truthyParam reg) then
    create_response 400 (errBody "callsign or reg required")
  else
    let byCallsign : Option FlightRow :=
      match callsign with
      | some cs =>
        if cs ≠ "" then
          (orderByCreatedAtDesc (db.filter (fun r => likeCallsign r cs))).head?
        else Option.none
      | Option.none => Option.none
    let flight : Option FlightRow :=
      match byCallsign with
      | some f => some f
      | Option.none =>
        match reg with
        | some rg =>
          if rg ≠ "" then
            (orderByCreatedAtDesc (db.filter (fun r => regMatches r rg))).head?
          else Option.none
        | Option.none => Option.none
    match flight with
    | some f =>
      create_response 200 (.obj [("source", .str "ubikais"),
        ("callsign", f.flight_number.toJson),
        ("origin", .obj [("icao", f.origin.toJson)]),
        ("destination", .obj [("icao", f.destination.toJson)]),
        ("aircraft", .obj [("type", f.aircraft_type.toJson),
                           ("registration", f.registration.toJson)]),
        ("status", f.status.toJson)])
    | Option.none =>
      create_response 200 (.obj [("source", Json.null), ("origin", Json.null),
        ("destination", Json.null)])

/-- Claim C9, counterexample: `GET /api/flights?limit=abc` does not coerce
`limit` to its default and succeed — `int("abc")` raises inside the
handler's `try`, and the blanket `except` converts it into a 500 error
envelope. -/
theorem claim_C9_counterexample :
    handle_flights [] [("limit", "abc")]
      = create_response 500 (errBody "invalid literal for int() with base 10: abc") ∧
    (handle_flights [] [("limit", "abc")]).statusCode ≠ 200 :=
  ⟨rfl, by decide⟩

/-- Claim C9 as amended: a non-numeric value for the numeric `limit`
parameter makes the façade return a 500 JSON error envelope, not a
successful response; the default 100 applies only when the parameter is
absent, in which case the request behaves exactly as `limit=100` and
succeeds with status 200. -/
theorem claim_C9 :
    (∀ (db : List FlightRow) (params : QueryParams) (s : String),
      List.lookup "limit" params = some s → pyInt? s = Option.none →
      handle_flights db params
        = create_response 500 (errBody ("invalid literal for int() with base 10: " ++ s))) ∧
    (∀ (db : List FlightRow) (params : QueryParams),
      List.lookup "limit" params = Option.none →
      handle_flights db params = handle_flights db (("limit", "100") :: params)) ∧
    (∀ (db : List FlightRow) (params : QueryParams),
      List.lookup "limit" params = Option.none →
      (handle_flights db params).statusCode = 200) := by
  refine ⟨?_, ?_, ?_⟩
  · intro db params s h1 h2
    simp [handle_flights, h1, h2]
  · intro db params h
    have hp : pyInt? "100" = some 100 := by decide
    simp only [handle_flights, h,
      show List.lookup "limit" (("limit", "100") :: params) = some "100" from rfl,
      show List.lookup "type" (("limit", "100") :: params) = List.lookup "type" params from rfl,
      hp]
  · intro db params h
    simp [handle_flights, h, create_response]

/-- Claim C9 witness: `limit=abc` yields the 500 error envelope, and a
request without `limit` equals the same request with `limit=100` and
succeeds. -/
theorem claim_C9_witness :
    handle_flights [] [("limit", "abc")]
      = create_response 500 (errBody ("invalid literal for int() with base 10: " ++ "abc")) ∧
    handle_flights [] [] = handle_flights [] [("limit", "100")] ∧
    (handle_flights [] []).statusCode = 200 :=
  ⟨claim_C9.1 [] [("limit", "abc")] "abc" rfl (by decide),
   claim_C9.2.1 [] [] rfl,
   claim_C9.2.2 [] [] rfl⟩

/-- Claim C10 (confirmed): a route lookup by a non-empty callsign that
matches no stored flight plan, with no `reg` parameter, returns HTTP 200
with the body `{source: null, origin: null, destination: null}` — not a
404 and not an error envelope. -/
theorem claim_C10 :
    ∀ (db : List FlightRow) (params : QueryParams) (cs : String),
      List.lookup "callsign" params = some cs → cs ≠ "" →
      List.lookup "reg" params = Option.none →
      (∀ r ∈ db, likeCallsign r cs = false) →
      handle_flight_route db params
        = create_response 200 (Json.obj [("source", Json.null), ("origin", Json.null),
            ("destination", Json.null)]) := by
  intro db params cs h1 h2 h3 h4
  have hfilter : db.filter (fun r => likeCallsign r cs) = [] := by
    rw [List.filter_eq_nil_iff]
    intro a ha
    simp [h4 a ha]
  simp [handle_flight_route, h1, h2, h3, hfilter, orderByCreatedAtDesc, sortBy]

/-- Claim C10 witness: a store holding one flight plan (`OZ102`) and a
route lookup for `KAL123` returns the 200 all-null body. -/
theorem claim_C10_witness :
    handle_flight_route
        [⟨PyVal.str "OZ102", PyVal.str "HL1234", PyVal.str "RKSI", PyVal.str "RKPC",
          PyVal.str "A321", PyVal.str "ACTIVE", PyVal.str "departure",
          PyVal.str "2026-01-11", PyVal.none, PyVal.none⟩]
        [("callsign", "KAL123")]
      = create_response 200 (Json.obj [("source", Json.null), ("origin", Json.null),
          ("destination", Json.null)]) :=
  claim_C10
    [⟨PyVal.str "OZ102", PyVal.str "HL1234", PyVal.str "RKSI", PyVal.str "RKPC",
      PyVal.str "A321", PyVal.str "ACTIVE", PyVal.str "departure",
      PyVal.str "2026-01-11", PyVal.none, PyVal.none⟩]
    [("callsign", "KAL123")] "KAL123" rfl (by decide) rfl (by decide)

end Tbas
